import Mathlib

/-!
Verification of the Flashcard spaced-repetition application.

The development shallowly embeds the scheduling, deck and store-handler code
of the repository. JavaScript numbers are modelled as exact rationals (the
reachable interval values are dyadic and the operations used are `+`, `*`,
`/ 2` and `max`, all exact on them), optional object fields as `Option`,
stored KV values as an inductive that distinguishes what `JSON.parse` can
distinguish, and external inputs (clock reads, generated UUIDs, network
responses) as explicit parameters.
-/

namespace FlashcardApp

/-- The `Flashcard` record from `src/types.ts`. Timestamps are in
milliseconds; `interval` is in days and may be fractional. -/
structure Flashcard where
  id : String
  word : String
  definition : String
  exampleSentence : Option String
  createdAt : ℚ
  lastReviewedAt : Option ℚ
  dueDate : Option ℚ
  interval : Option ℚ
deriving DecidableEq, Repr

/-- `calculateNextDueDate` from `src/App.tsx` lines 47 to 62. The source
reads `Date.now()` twice, once for `newDueDate` (line 55) and once for
`lastReviewedAt` (line 58), so the two clock reads are separate parameters
`nowDue` and `nowRev`, in evaluation order. `flashcard.interval || 0` maps
both an absent field and `0` to `0`, i.e. `Option.getD 0`. -/
def calculateNextDueDate (flashcard : Flashcard) (success : Bool)
    (nowDue nowRev : ℚ) : Flashcard :=
  let newInterval := flashcard.interval.getD 0
  let newInterval :=
    if success then max 1 (if newInterval = 0 then 1 else newInterval * 2)
    else max 0 (newInterval / 2)
  let newDueDate := nowDue + newInterval * 24 * 60 * 60 * 1000
  { flashcard with
      lastReviewedAt := some nowRev
      interval := some newInterval
      dueDate := some newDueDate }

/-- A sample card used to instantiate theorems at concrete inputs. -/
def sampleCard : Flashcard :=
  { id := "c1", word := "ephemeral", definition := "lasting a very short time",
    exampleSentence := none, createdAt := 0, lastReviewedAt := none,
    dueDate := none, interval := some 4 }

/-- The interval field of a reviewed card, read off the definition. -/
theorem interval_calculateNextDueDate (c : Flashcard) (success : Bool) (nd nr : ℚ) :
    (calculateNextDueDate c success nd nr).interval
      = some (if success then
            max 1 (if c.interval.getD 0 = 0 then 1 else c.interval.getD 0 * 2)
          else max 0 (c.interval.getD 0 / 2)) := rfl

/-- C1: for a card with interval `i ≥ 0`, a successful review yields
interval `max 1 (if i = 0 then 1 else i * 2)` and a failed review yields
`max 0 (i / 2)`, exactly as in `calculateNextDueDate`. -/
theorem c1_interval_rule (c : Flashcard) (i : ℚ) (hi : c.interval = some i)
    (_hnn : 0 ≤ i) (nd nr : ℚ) :
    (calculateNextDueDate c true nd nr).interval
        = some (max 1 (if i = 0 then 1 else i * 2)) ∧
    (calculateNextDueDate c false nd nr).interval = some (max 0 (i / 2)) := by
  simp [calculateNextDueDate, hi]

/-- Witness for C1 at the sample card (interval 4): success doubles to 8,
failure halves to 2. -/
theorem c1_interval_rule_witness :
    (calculateNextDueDate sampleCard true 0 0).interval = some 8 ∧
    (calculateNextDueDate sampleCard false 0 0).interval = some 2 := by
  have h := c1_interval_rule sampleCard 4 rfl (by norm_num) 0 0
  refine ⟨h.1.trans ?_, h.2.trans ?_⟩ <;> norm_num

/-- C2 fails as stated: the code derives `dueDate` and `lastReviewedAt`
from two separate `Date.now()` reads, so when the reads differ (here 0 and
1) the discrepancy shows up in `dueDate - lastReviewedAt`. -/
theorem c2_two_clock_reads_counterexample :
    ¬ ((calculateNextDueDate sampleCard true 0 1).dueDate.getD 0
        - (calculateNextDueDate sampleCard true 0 1).lastReviewedAt.getD 0
        = (calculateNextDueDate sampleCard true 0 1).interval.getD 0 * 86400000) := by
  norm_num [calculateNextDueDate, sampleCard]

/-- C2 (amended): when the two internal clock reads return the same instant
`now`, the reviewed card satisfies
`dueDate - lastReviewedAt = interval * 86400000` exactly, with
`lastReviewedAt = now` and `dueDate = now + interval * 86400000`. -/
theorem c2_due_date_equation (c : Flashcard) (success : Bool) (now : ℚ) :
    (calculateNextDueDate c success now now).dueDate.getD 0
        - (calculateNextDueDate c success now now).lastReviewedAt.getD 0
      = (calculateNextDueDate c success now now).interval.getD 0 * 86400000 ∧
    (calculateNextDueDate c success now now).lastReviewedAt = some now ∧
    (calculateNextDueDate c success now now).dueDate
      = some (now + (calculateNextDueDate c success now now).interval.getD 0 * 86400000) := by
  refine ⟨?_, rfl, ?_⟩ <;> simp [calculateNextDueDate] <;> ring_nf

/-- C10: from a strictly positive interval, a failed review halves the
interval to a strictly positive (possibly fractional) value; an interval
of 0 is produced only from a card whose interval was already 0 and only by
a failed review. -/
theorem c10_zero_interval_only_from_zero (c : Flashcard) (success : Bool)
    (nd nr : ℚ) (hnn : 0 ≤ c.interval.getD 0) :
    (0 < c.interval.getD 0 → success = false →
      (calculateNextDueDate c success nd nr).interval
          = some (c.interval.getD 0 / 2) ∧
      0 < c.interval.getD 0 / 2) ∧
    ((calculateNextDueDate c success nd nr).interval = some 0 →
      c.interval.getD 0 = 0 ∧ success = false) := by
  have hint := interval_calculateNextDueDate c success nd nr
  constructor
  · intro hpos hs
    subst hs
    simp only [Bool.false_eq_true, if_false] at hint
    rw [max_eq_right (by positivity : (0:ℚ) ≤ c.interval.getD 0 / 2)] at hint
    exact ⟨hint, by positivity⟩
  · intro h
    cases success with
    | true =>
      exfalso
      simp only [if_true] at hint
      rw [hint] at h
      have h' : max (1:ℚ)
          (if c.interval.getD 0 = 0 then 1 else c.interval.getD 0 * 2) = 0 :=
        Option.some.inj h
      have h1 : (1:ℚ) ≤ 0 := h' ▸ le_max_left _ _
      norm_num at h1
    | false =>
      refine ⟨?_, rfl⟩
      simp only [Bool.false_eq_true, if_false] at hint
      rw [hint] at h
      have h' : max (0:ℚ) (c.interval.getD 0 / 2) = 0 := Option.some.inj h
      have hle : c.interval.getD 0 / 2 ≤ 0 := by
        by_contra hc
        push_neg at hc
        rw [max_eq_right hc.le] at h'
        exact hc.ne' h'
      linarith

/-- Witness for C10 at the sample card (interval 4): a failed review yields
interval 2, still positive. -/
theorem c10_zero_interval_only_from_zero_witness :
    (calculateNextDueDate sampleCard false 0 0).interval = some 2 ∧
    (0:ℚ) < 2 := by
  have h := (c10_zero_interval_only_from_zero sampleCard false 0 0
      (by norm_num [sampleCard])).1 (by norm_num [sampleCard]) rfl
  refine ⟨h.1.trans ?_, by norm_num⟩
  norm_num [sampleCard]

/-! ## Deck ordering (`src/App.tsx` sort sites) -/

/-- The sort key `(a.dueDate || 0)` used by the comparator
`(a, b) => (a.dueDate || 0) - (b.dueDate || 0)` at `src/App.tsx` lines 71,
88 and 105: a missing `dueDate` (and an actual 0) sorts as 0. -/
def dueKey (c : Flashcard) : ℚ := c.dueDate.getD 0

/-- JS `Array.prototype.sort` with that comparator: a stable sort by
`dueKey`, modelled by the stable `List.mergeSort`. -/
def sortByDueDate (l : List Flashcard) : List Flashcard :=
  l.mergeSort (fun a b => dueKey a ≤ dueKey b)

/-- `fetchFlashcards` success path, `src/App.tsx` line 71: the full listing
is sorted by due date. -/
def replaceAll (cards : List Flashcard) : List Flashcard := sortByDueDate cards

/-- `handleAddFlashcard` success path, `src/App.tsx` line 88: the created
card is appended and the deck re-sorted. -/
def upsertAdd (deck : List Flashcard) (c : Flashcard) : List Flashcard :=
  sortByDueDate (deck ++ [c])

theorem dueKey_le_trans (a b c : Flashcard) :
    (decide (dueKey a ≤ dueKey b)) → (decide (dueKey b ≤ dueKey c)) →
    (decide (dueKey a ≤ dueKey c)) := by
  simp only [decide_eq_true_eq]
  exact le_trans

theorem dueKey_le_total (a b : Flashcard) :
    (decide (dueKey a ≤ dueKey b) || decide (dueKey b ≤ dueKey a)) = true := by
  simpa using le_total (dueKey a) (dueKey b)

/-- Stability of `sortByDueDate`: the subsequence of cards at any fixed due
key is unchanged by the sort. -/
theorem filter_sortByDueDate (l : List Flashcard) (k : ℚ) :
    (sortByDueDate l).filter (fun x => dueKey x = k)
      = l.filter (fun x => dueKey x = k) := by
  have hsub : (l.filter (fun x => dueKey x = k)).Sublist l := List.filter_sublist l
  have hpw : (l.filter (fun x => dueKey x = k)).Pairwise
      (fun a b => decide (dueKey a ≤ dueKey b) = true) := by
    apply List.pairwise_of_forall_mem_list
    intro a ha b hb
    have ha' := (List.mem_filter.mp ha).2
    have hb' := (List.mem_filter.mp hb).2
    simp only [decide_eq_true_eq] at ha' hb' ⊢
    rw [ha', hb']
  have hsub2 : (l.filter (fun x => dueKey x = k)).Sublist (sortByDueDate l) :=
    List.sublist_mergeSort dueKey_le_trans dueKey_le_total hpw hsub
  have hsub3 : ((l.filter (fun x => dueKey x = k)).filter
        (fun x => dueKey x = k)).Sublist
        ((sortByDueDate l).filter (fun x => dueKey x = k)) :=
    hsub2.filter _
  rw [List.filter_filter] at hsub3
  simp only [Bool.and_self] at hsub3
  have hperm : ((sortByDueDate l).filter (fun x => dueKey x = k)).Perm
      (l.filter (fun x => dueKey x = k)) :=
    (l.mergeSort_perm _).filter _
  exact (hsub3.eq_of_length hperm.length_eq.symm).symm

/-- Sortedness of `sortByDueDate` by the due key. -/
theorem pairwise_sortByDueDate (l : List Flashcard) :
    (sortByDueDate l).Pairwise (fun a b => dueKey a ≤ dueKey b) := by
  have h := List.sorted_mergeSort dueKey_le_trans dueKey_le_total l
  exact h.imp (fun hab => by simpa using hab)

/-- C4: after `replaceAll` (full listing) and after the add-card upsert,
the deck is in non-decreasing `dueKey` order (missing `dueDate` as 0), is a
permutation of its input, and the sort is stable: for every key `k` the
subsequence of cards with that key keeps its original relative order. -/
theorem c4_deck_sorted_stable (cards deck : List Flashcard) (c : Flashcard) (k : ℚ) :
    (replaceAll cards).Pairwise (fun a b => dueKey a ≤ dueKey b) ∧
    (replaceAll cards).Perm cards ∧
    (replaceAll cards).filter (fun x => dueKey x = k)
      = cards.filter (fun x => dueKey x = k) ∧
    (upsertAdd deck c).Pairwise (fun a b => dueKey a ≤ dueKey b) ∧
    (upsertAdd deck c).Perm (deck ++ [c]) ∧
    (upsertAdd deck c).filter (fun x => dueKey x = k)
      = (deck ++ [c]).filter (fun x => dueKey x = k) :=
  ⟨pairwise_sortByDueDate cards, cards.mergeSort_perm _,
    filter_sortByDueDate cards k,
    pairwise_sortByDueDate (deck ++ [c]), (deck ++ [c]).mergeSort_perm _,
    filter_sortByDueDate (deck ++ [c]) k⟩

/-! ## App state: deck plus review cursor (`src/App.tsx`) -/

/-- The deck-relevant part of the App component state: the `flashcards`
list and the `currentFlashcardIndex` cursor (`src/App.tsx` lines 17, 20). -/
structure AppState where
  flashcards : List Flashcard
  currentFlashcardIndex : Nat
deriving DecidableEq, Repr

/-- `currentFlashcard`, `src/App.tsx` lines 137 to 139: the card at the
cursor when the deck is non-empty (`none` both for an empty deck and for an
out-of-range cursor, where JS indexing yields `undefined`). -/
def currentFlashcard (st : AppState) : Option Flashcard :=
  if st.flashcards.length > 0 then st.flashcards[st.currentFlashcardIndex]?
  else none

/-- `handleReviewFlashcard`, `src/App.tsx` lines 94 to 114. The reply of
`flashcardService.updateFlashcard` is the external input `resp`; the card
sent to the store is `calculateNextDueDate` of the found card (clock reads
`nd`, `nr`), while the card applied locally is the one the store returns
(`response.data`). The cursor advances only when the deck had more than one
card. -/
def handleReviewFlashcard (st : AppState) (id : String) (success : Bool)
    (nd nr : ℚ) (resp : Except String Flashcard) : AppState :=
  match st.flashcards.find? (fun f => f.id == id) with
  | none => st
  | some flashcardToUpdate =>
    let _updatedFlashcard := calculateNextDueDate flashcardToUpdate success nd nr
    match resp with
    | .ok data =>
      { flashcards := sortByDueDate
          (st.flashcards.map (fun f => if f.id == id then data else f))
        currentFlashcardIndex :=
          if st.flashcards.length > 1 then
            (st.currentFlashcardIndex + 1) % st.flashcards.length
          else st.currentFlashcardIndex }
    | .error _ => st

/-- C5: review is atomic on the deck: if no card with the id is present the
operation is a no-op, and on a store failure the whole state is exactly the
pre-review state, so no field of any card is partially overwritten ahead of
store confirmation. -/
theorem c5_review_atomic (st : AppState) (id : String) (success : Bool)
    (nd nr : ℚ) (resp : Except String Flashcard) :
    (st.flashcards.find? (fun f => f.id == id) = none →
      handleReviewFlashcard st id success nd nr resp = st) ∧
    (∀ e, resp = .error e →
      handleReviewFlashcard st id success nd nr resp = st) := by
  constructor
  · intro h
    simp [handleReviewFlashcard, h]
  · intro e he
    subst he
    unfold handleReviewFlashcard
    cases hf : st.flashcards.find? (fun f => f.id == id) <;> simp

/-- Witness for C5: on a one-card deck, reviewing an absent id and a failed
store update both leave the state untouched. -/
theorem c5_review_atomic_witness :
    handleReviewFlashcard ⟨[sampleCard], 0⟩ "absent" true 0 0 (.ok sampleCard)
        = ⟨[sampleCard], 0⟩ ∧
    handleReviewFlashcard ⟨[sampleCard], 0⟩ "c1" true 0 0 (.error "network down")
        = ⟨[sampleCard], 0⟩ := by
  constructor
  · exact (c5_review_atomic ⟨[sampleCard], 0⟩ "absent" true 0 0
      (.ok sampleCard)).1 (by decide)
  · exact (c5_review_atomic ⟨[sampleCard], 0⟩ "c1" true 0 0
      (.error "network down")).2 "network down" rfl

/-- `handleDeleteFlashcard`, `src/App.tsx` lines 116 to 127, with the store
reply to `deleteFlashcard` as external input. On success the card is
filtered out and the cursor is reset to 0 when it was at or past the last
position of the old deck and the old deck had more than one card. -/
def handleDeleteFlashcard (st : AppState) (id : String)
    (resp : Except String Unit) : AppState :=
  match resp with
  | .ok _ =>
    { flashcards := st.flashcards.filter (fun f => !(f.id == id))
      currentFlashcardIndex :=
        if st.currentFlashcardIndex ≥ st.flashcards.length - 1
            ∧ st.flashcards.length > 1 then 0
        else st.currentFlashcardIndex }
  | .error _ => st

/-- With pairwise-distinct ids, deleting by id removes at most one card. -/
theorem length_le_length_filter_id_add_one (l : List Flashcard) (id : String)
    (h : (l.map Flashcard.id).Nodup) :
    l.length ≤ (l.filter (fun f => !(f.id == id))).length + 1 := by
  induction l with
  | nil => simp
  | cons a t ih =>
    simp only [List.map_cons, List.nodup_cons] at h
    by_cases ha : (a.id == id) = true
    · have ha' : a.id = id := by simpa using ha
      have ht : t.filter (fun f => !(f.id == id)) = t := by
        rw [List.filter_eq_self]
        intro b hb
        simp only [Bool.not_eq_eq_eq_not, Bool.not_true, beq_eq_false_iff_ne,
          ne_eq]
        intro hbid
        exact h.1 (by
          rw [ha', ← hbid]
          exact List.mem_map_of_mem Flashcard.id hb)
      simp only [List.filter_cons, ha, Bool.not_true, Bool.false_eq_true,
        if_false, List.length_cons, ht]
      omega
    · have ha' : (a.id == id) = false := by simpa using ha
      have := ih h.2
      simp only [List.filter_cons, ha', Bool.not_false, if_true,
        List.length_cons]
      omega

/-- C6: with pairwise-distinct ids and a valid cursor, deleting leaves the
cursor inside `[0, length - 1]` whenever the deck stays non-empty, and
`currentFlashcard` is `none` when the deck becomes empty. -/
theorem c6_delete_cursor_in_range (st : AppState) (id : String)
    (hnd : (st.flashcards.map Flashcard.id).Nodup)
    (hidx : st.currentFlashcardIndex < st.flashcards.length) :
    ((handleDeleteFlashcard st id (.ok ())).flashcards ≠ [] →
      (handleDeleteFlashcard st id (.ok ())).currentFlashcardIndex
        < (handleDeleteFlashcard st id (.ok ())).flashcards.length) ∧
    ((handleDeleteFlashcard st id (.ok ())).flashcards = [] →
      currentFlashcard (handleDeleteFlashcard st id (.ok ())) = none) := by
  have hflash : (handleDeleteFlashcard st id (.ok ())).flashcards
      = st.flashcards.filter (fun f => !(f.id == id)) := rfl
  have hcur : (handleDeleteFlashcard st id (.ok ())).currentFlashcardIndex
      = if st.currentFlashcardIndex ≥ st.flashcards.length - 1
            ∧ st.flashcards.length > 1 then 0
        else st.currentFlashcardIndex := rfl
  constructor
  · intro hne
    have hlen : 0 < (st.flashcards.filter (fun f => !(f.id == id))).length := by
      rw [hflash] at hne
      exact List.length_pos.mpr hne
    have hfl := length_le_length_filter_id_add_one st.flashcards id hnd
    rw [hflash, hcur]
    by_cases hc : st.currentFlashcardIndex ≥ st.flashcards.length - 1
        ∧ st.flashcards.length > 1
    · rw [if_pos hc]
      exact hlen
    · rw [if_neg hc]
      omega
  · intro hemp
    simp [currentFlashcard, hemp]

/-- Three distinct cards for concrete deck scenarios. -/
def cardA : Flashcard :=
  { id := "a", word := "alpha", definition := "first letter",
    exampleSentence := none, createdAt := 0, lastReviewedAt := none,
    dueDate := some 1, interval := some 0 }

def cardB : Flashcard :=
  { id := "b", word := "beta", definition := "second letter",
    exampleSentence := none, createdAt := 0, lastReviewedAt := none,
    dueDate := some 2, interval := some 0 }

def cardC : Flashcard :=
  { id := "c", word := "gamma", definition := "third letter",
    exampleSentence := none, createdAt := 0, lastReviewedAt := none,
    dueDate := some 3, interval := some 0 }

/-- Witness for C6: three cards with cursor 0; removing the card at cursor
0 keeps the cursor at 0, now on the former index-1 card; removing the only
card of a singleton deck empties it and `currentFlashcard` is `none`. -/
theorem c6_delete_cursor_in_range_witness :
    ((handleDeleteFlashcard ⟨[cardA, cardB, cardC], 0⟩ "a" (.ok ())).flashcards
        ≠ [] →
      (handleDeleteFlashcard ⟨[cardA, cardB, cardC], 0⟩ "a"
          (.ok ())).currentFlashcardIndex
        < (handleDeleteFlashcard ⟨[cardA, cardB, cardC], 0⟩ "a"
            (.ok ())).flashcards.length) ∧
    (handleDeleteFlashcard ⟨[cardA, cardB, cardC], 0⟩ "a"
        (.ok ())).currentFlashcardIndex = 0 ∧
    currentFlashcard (handleDeleteFlashcard ⟨[cardA, cardB, cardC], 0⟩ "a"
        (.ok ())) = some cardB ∧
    (handleDeleteFlashcard ⟨[cardA], 0⟩ "a" (.ok ())).flashcards = [] ∧
    currentFlashcard (handleDeleteFlashcard ⟨[cardA], 0⟩ "a" (.ok ())) = none := by
  refine ⟨(c6_delete_cursor_in_range ⟨[cardA, cardB, cardC], 0⟩ "a"
      (by decide) (by decide)).1, ?_, ?_, ?_, ?_⟩ <;> decide

/-- `handleNextFlashcard`, `src/App.tsx` lines 129 to 131:
`(prevIndex + 1) % flashcards.length`. In JS, `x % 0` is `NaN`; a `NaN`
cursor is modelled as `none`. -/
def handleNextFlashcard (prevIndex len : Nat) : Option Nat :=
  if len = 0 then none else some ((prevIndex + 1) % len)

/-- `handlePreviousFlashcard`, `src/App.tsx` lines 133 to 135:
`(prevIndex - 1 + flashcards.length) % flashcards.length`; for a natural
cursor and `len ≥ 1` this equals `(prevIndex + len - 1) % len`, and for
`len = 0` the JS result is again `NaN`. -/
def handlePreviousFlashcard (prevIndex len : Nat) : Option Nat :=
  if len = 0 then none else some ((prevIndex + len - 1) % len)

/-- The Previous/Next buttons are rendered disabled when
`flashcards.length <= 1 || isReadingAloud` (`src/App.tsx` lines 266, 273). -/
def navButtonsDisabled (len : Nat) (isReadingAloud : Bool) : Bool :=
  decide (len ≤ 1) || isReadingAloud

/-- C9 fails as stated for an empty deck: the handlers compute `% 0`
(`NaN` in JS) instead of leaving the cursor unchanged and valid. -/
theorem c9_advance_counterexample :
    handleNextFlashcard 0 0 ≠ some 0 ∧ handleNextFlashcard 0 0 = none ∧
    handlePreviousFlashcard 0 0 ≠ some 0 ∧
    handlePreviousFlashcard 0 0 = none := by
  decide

/-- C9 (amended): on a non-empty deck the handlers move the cursor modulo
the length, wrapping at both ends, and are a no-op on a 1-card deck; on an
empty deck the raw handlers produce the `NaN` cursor instead, but the UI
disables both buttons whenever the deck has at most one card, so the empty
and singleton cases are unreachable through the buttons. -/
theorem c9_advance_mod (prevIndex len : Nat) (hlen : 1 ≤ len)
    (hidx : prevIndex < len) :
    handleNextFlashcard prevIndex len = some ((prevIndex + 1) % len) ∧
    handlePreviousFlashcard prevIndex len = some ((prevIndex + len - 1) % len) ∧
    (prevIndex = len - 1 → handleNextFlashcard prevIndex len = some 0) ∧
    (prevIndex = 0 → handlePreviousFlashcard prevIndex len = some (len - 1)) ∧
    (len = 1 → handleNextFlashcard prevIndex len = some prevIndex ∧
      handlePreviousFlashcard prevIndex len = some prevIndex) ∧
    (∀ r : Bool, navButtonsDisabled 0 r = true ∧ navButtonsDisabled 1 r = true) := by
  have h0 : len ≠ 0 := by omega
  refine ⟨by simp [handleNextFlashcard, h0], by simp [handlePreviousFlashcard, h0],
    ?_, ?_, ?_, ?_⟩
  · intro he
    subst he
    simp only [handleNextFlashcard, h0, if_false, Option.some.injEq]
    have h1 : len - 1 + 1 = len := by omega
    rw [h1, Nat.mod_self]
  · intro he
    subst he
    simp only [handlePreviousFlashcard, h0, if_false, Option.some.injEq,
      Nat.zero_add]
    exact Nat.mod_eq_of_lt (by omega)
  · intro he
    subst he
    have hp : prevIndex = 0 := by omega
    subst hp
    exact ⟨rfl, rfl⟩
  · intro r
    constructor <;> simp [navButtonsDisabled]

/-- Witness for C9 (amended): on a 3-card deck, next from the last position
wraps to 0 and previous from 0 wraps to 2. -/
theorem c9_advance_mod_witness :
    handleNextFlashcard 2 3 = some 0 ∧ handlePreviousFlashcard 0 3 = some 2 := by
  constructor
  · exact (c9_advance_mod 2 3 (by norm_num) (by norm_num)).2.2.1 rfl
  · exact (c9_advance_mod 0 3 (by norm_num) (by norm_num)).2.2.2.1 rfl

/-! ## Worker KV store handlers (`src/worker.ts`) -/

/-- What `JSON.parse` can see in a stored KV string: either a string that
is not valid card JSON (`JSON.parse` throws), or valid card JSON. -/
inductive KVValue where
  | corrupt (s : String)
  | card (c : Flashcard)
deriving DecidableEq, Repr

/-- The KV namespace: listed keys with the value `get` returns for each
(`none` models a `null`/empty read, dropped by `value ? ... : null`). -/
abbrev KVStore := List (String × Option KVValue)

/-- GET `/api/flashcards` handler, `src/worker.ts` lines 99 to 112. Missing
values map to `null` and are dropped by `.filter(Boolean)`, but
`JSON.parse` of a corrupt value throws inside the async mapper, rejecting
the whole `Promise.all`; the catch turns the first such rejection into a
500 error response. -/
def listFlashcards : KVStore → Except String (List Flashcard)
  | [] => .ok []
  | (_, none) :: rest => listFlashcards rest
  | (_, some (.corrupt s)) :: _ =>
      .error ("Failed to retrieve flashcards: " ++ s)
  | (_, some (.card c)) :: rest => (listFlashcards rest).map (fun cs => c :: cs)

/-- Whether a stored entry holds a value that is not valid card JSON. -/
def isCorrupt (e : String × Option KVValue) : Bool :=
  match e.2 with
  | some (.corrupt _) => true
  | _ => false

/-- The cards among the stored entries, in key order. -/
def validCards (kv : KVStore) : List Flashcard :=
  kv.filterMap (fun e => match e.2 with
    | some (.card c) => some c
    | _ => none)

theorem listFlashcards_ok_of_no_corrupt (kv : KVStore)
    (h : ∀ e ∈ kv, isCorrupt e = false) :
    listFlashcards kv = .ok (validCards kv) := by
  induction kv with
  | nil => rfl
  | cons e rest ih =>
    have he := h e (List.mem_cons_self e rest)
    have hrest := ih fun x hx => h x (List.mem_cons_of_mem e hx)
    match e with
    | (k, none) => simpa [listFlashcards, validCards] using hrest
    | (k, some (.corrupt s)) => simp [isCorrupt] at he
    | (k, some (.card c)) =>
      simp only [listFlashcards, hrest, validCards, List.filterMap_cons,
        Except.map]

theorem listFlashcards_error_of_corrupt (kv : KVStore)
    (h : ∃ e ∈ kv, isCorrupt e = true) :
    ∃ msg, listFlashcards kv = .error msg := by
  induction kv with
  | nil =>
    obtain ⟨e, he, _⟩ := h
    cases he
  | cons e rest ih =>
    obtain ⟨x, hx, hcor⟩ := h
    match e with
    | (k, none) =>
      rcases List.mem_cons.mp hx with rfl | hx'
      · simp [isCorrupt] at hcor
      · simpa [listFlashcards] using ih ⟨x, hx', hcor⟩
    | (k, some (.corrupt s)) => exact ⟨_, rfl⟩
    | (k, some (.card c)) =>
      rcases List.mem_cons.mp hx with rfl | hx'
      · simp [isCorrupt] at hcor
      · obtain ⟨m, hm⟩ := ih ⟨x, hx', hcor⟩
        exact ⟨m, by simp [listFlashcards, hm, Except.map]⟩

/-- A store with three valid cards and one corrupt entry. -/
def corruptDemoStore : KVStore :=
  [("k1", some (.card cardA)), ("k2", some (.corrupt "not json")),
   ("k3", some (.card cardB)), ("k4", some (.card cardC))]

/-- C3 fails as stated: with three valid cards and one corrupt entry, the
whole GET call answers a 500 error instead of returning the valid cards. -/
theorem c3_corrupt_entry_counterexample :
    listFlashcards corruptDemoStore
      = .error "Failed to retrieve flashcards: not json" ∧
    listFlashcards corruptDemoStore ≠ .ok (validCards corruptDemoStore) := by
  have h1 : listFlashcards corruptDemoStore
      = Except.error "Failed to retrieve flashcards: not json" := rfl
  refine ⟨h1, ?_⟩
  rw [h1]
  intro h
  exact Except.noConfusion h

/-- C3 (amended): `list()` silently drops entries whose stored value is
missing and succeeds with exactly the valid cards when no stored value is
corrupt; but if any stored value is present and not valid card JSON, the
whole call fails with an error. -/
theorem c3_list_filters_missing_fails_on_corrupt (kv : KVStore) :
    ((∀ e ∈ kv, isCorrupt e = false) →
      listFlashcards kv = .ok (validCards kv)) ∧
    ((∃ e ∈ kv, isCorrupt e = true) →
      ∃ msg, listFlashcards kv = .error msg) :=
  ⟨listFlashcards_ok_of_no_corrupt kv, listFlashcards_error_of_corrupt kv⟩

/-- Witness for C3 (amended): a store with one missing value and two cards
lists exactly the two cards; the demo store with a corrupt entry errors. -/
theorem c3_list_filters_missing_fails_on_corrupt_witness :
    listFlashcards [("k1", some (.card cardA)), ("k2", none),
        ("k3", some (.card cardB))] = .ok [cardA, cardB] ∧
    ∃ msg, listFlashcards corruptDemoStore = .error msg := by
  constructor
  · exact (c3_list_filters_missing_fails_on_corrupt
      [("k1", some (.card cardA)), ("k2", none),
        ("k3", some (.card cardB))]).1 (by decide)
  · exact (c3_list_filters_missing_fails_on_corrupt corruptDemoStore).2
      ⟨("k2", some (.corrupt "not json")), by decide⟩

/-- The draft a client submits for creation: no id, createdAt, dueDate or
interval (`Omit<Flashcard, 'id' | 'createdAt' | 'dueDate' | 'interval'>`,
`src/worker.ts` line 116). -/
structure Draft where
  word : String
  definition : String
  exampleSentence : Option String
deriving DecidableEq, Repr

/-- Cloudflare KV `put`: overwrite the value at a key, appending when the
key is new. -/
def kvPut (kv : KVStore) (k : String) (v : KVValue) : KVStore :=
  if kv.any (fun e => e.1 == k) then
    kv.map (fun e => if e.1 == k then (k, some v) else e)
  else kv ++ [(k, some v)]

/-- POST `/api/flashcards` handler, `src/worker.ts` lines 114 to 135. A
body that `request.json()` cannot parse is `none` and yields status 400;
otherwise the store assigns `id` (`crypto.randomUUID()`, the external
input), `createdAt` and `dueDate` (two successive `Date.now()` reads,
lines 118 and 119) and `interval = 0`, and stores the card. No field of
the draft is validated. Result: new store contents, HTTP status, and the
response card if any. -/
def postFlashcard (kv : KVStore) (body : Option Draft) (id : String)
    (nowCreated nowDue : ℚ) : KVStore × Nat × Option Flashcard :=
  match body with
  | none => (kv, 400, none)
  | some draft =>
    let flashcard : Flashcard :=
      { id := id, word := draft.word, definition := draft.definition,
        exampleSentence := draft.exampleSentence, createdAt := nowCreated,
        lastReviewedAt := none, dueDate := some nowDue, interval := some 0 }
    (kvPut kv id (.card flashcard), 201, some flashcard)

/-- C7: a successful create followed by list yields, among the listed
cards, a card whose word, definition and example equal the submitted
draft, whose id is the store-generated one, whose `createdAt` and
`dueDate` are the two store-side clock reads of the creation instant
(equal whenever the reads coincide), and whose interval is 0. Hypotheses:
the prior store decodes cleanly and the generated id is fresh. -/
theorem c7_create_list_roundtrip (kv : KVStore) (draft : Draft) (id : String)
    (nowCreated nowDue : ℚ)
    (hok : ∀ e ∈ kv, isCorrupt e = false)
    (hfresh : kv.any (fun e => e.1 == id) = false) :
    ∃ l, listFlashcards
        (postFlashcard kv (some draft) id nowCreated nowDue).1 = .ok l ∧
      ∃ c ∈ l, c.word = draft.word ∧ c.definition = draft.definition ∧
        c.exampleSentence = draft.exampleSentence ∧ c.id = id ∧
        c.interval = some 0 ∧ c.createdAt = nowCreated ∧
        c.dueDate = some nowDue ∧
        (nowCreated = nowDue → c.dueDate = some c.createdAt) := by
  have hkv : (postFlashcard kv (some draft) id nowCreated nowDue).1
      = kv ++ [(id, some (.card ⟨id, draft.word, draft.definition,
          draft.exampleSentence, nowCreated, none, some nowDue, some 0⟩))] := by
    simp [postFlashcard, kvPut, hfresh]
  have hok' : ∀ e ∈ (postFlashcard kv (some draft) id nowCreated nowDue).1,
      isCorrupt e = false := by
    rw [hkv]
    intro e he
    rcases List.mem_append.mp he with h1 | h2
    · exact hok e h1
    · rw [List.mem_singleton.mp h2]
      rfl
  refine ⟨validCards (postFlashcard kv (some draft) id nowCreated nowDue).1,
    listFlashcards_ok_of_no_corrupt _ hok',
    ⟨id, draft.word, draft.definition, draft.exampleSentence, nowCreated,
      none, some nowDue, some 0⟩, ?_, rfl, rfl, rfl, rfl, rfl, rfl, rfl,
    fun h => by rw [h]⟩
  rw [hkv]
  unfold validCards
  rw [List.filterMap_append]
  exact List.mem_append_right _ (by simp)

/-- Witness for C7 on an empty store: creating a draft and listing yields
exactly the stored card with the submitted fields. -/
theorem c7_create_list_roundtrip_witness :
    ∃ l, listFlashcards
        (postFlashcard [] (some ⟨"hello", "a greeting", none⟩) "u1" 5 5).1
          = .ok l ∧
      ∃ c ∈ l, c.word = "hello" ∧ c.definition = "a greeting" ∧
        c.exampleSentence = (none : Option String) ∧ c.id = "u1" ∧
        c.interval = some 0 ∧ c.createdAt = 5 ∧ c.dueDate = some 5 ∧
        ((5:ℚ) = 5 → c.dueDate = some c.createdAt) :=
  c7_create_list_roundtrip [] ⟨"hello", "a greeting", none⟩ "u1" 5 5
    (by simp) rfl

/-- C8 fails as stated: the worker stores a draft with an empty `word` and
answers 201; no validation error occurs and a card is stored. -/
theorem c8_no_server_validation_counterexample :
    (postFlashcard [] (some ⟨"", "a definition", none⟩) "u1" 0 0).2.1 = 201 ∧
    (postFlashcard [] (some ⟨"", "a definition", none⟩) "u1" 0 0).1
      = [("u1", some (.card ⟨"u1", "", "a definition", none, 0, none,
          some 0, some 0⟩))] := by
  constructor <;> rfl

/-- JS `String.prototype.trim`: drop leading and trailing whitespace,
modelled structurally over the character list so it evaluates in the
kernel. -/
def jsTrim (s : String) : String :=
  ⟨((s.data.dropWhile Char.isWhitespace).reverse.dropWhile
      Char.isWhitespace).reverse⟩

/-- `AddWordForm.handleSubmit` guard, `src/unnamed/part_000` lines 38 to
53: the error message displayed and whether `onAdd` (and hence the create
request) is invoked. JS falsiness of `word.trim()` is emptiness of the
trimmed string. -/
def handleSubmit (word definition : String) : Option String × Bool :=
  if jsTrim word = "" ∨ jsTrim definition = "" then
    (some "Word and Definition are required.", false)
  else (none, true)

/-- C8 (amended): missing-field validation happens only client-side: when
the trimmed word or definition is empty the add form shows an error and
issues no create request; the worker-side create performs no field
validation and answers 201, storing any well-formed draft (400 arises only
for a body that does not parse as JSON). -/
theorem c8_client_side_validation (word definition : String)
    (h : jsTrim word = "" ∨ jsTrim definition = "")
    (kv : KVStore) (draft : Draft) (id : String) (n1 n2 : ℚ) :
    handleSubmit word definition
      = (some "Word and Definition are required.", false) ∧
    (postFlashcard kv (some draft) id n1 n2).2.1 = 201 ∧
    (postFlashcard kv none id n1 n2).2.1 = 400 := by
  refine ⟨?_, rfl, rfl⟩
  unfold handleSubmit
  rw [if_pos h]

/-- Witness for C8 (amended) at an empty word. -/
theorem c8_client_side_validation_witness :
    handleSubmit "" "a definition"
      = (some "Word and Definition are required.", false) ∧
    (postFlashcard [] (some ⟨"x", "y", none⟩) "u2" 0 0).2.1 = 201 ∧
    (postFlashcard [] none "u2" 0 0).2.1 = 400 :=
  c8_client_side_validation "" "a definition" (Or.inl (by decide)) []
    ⟨"x", "y", none⟩ "u2" 0 0

end FlashcardApp
